import Mathlib

/-!
# Verification of the targeting / concurrent-dispatch engine

Shallow embedding of the `targeting`, `clients` and `services` packages of the
`ibm-fusion-mcp-server` repository:

* `internal/fusion/targeting/target.go` — `Target`, `Validate`,
  `GetClusterNames`, `parseSelector`, `matchesSelector`, `Result`,
  `AddClusterResult`, `SuccessCount`, `FailureCount`, `TotalCount`,
  `ResolveClusterNames`;
* `internal/fusion/clients/` — the `Registry` (clients map, default timeout,
  `SetTimeout`, `GetClient`);
* `internal/fusion/services/common.go` — `ExecuteOnClusters`.

Go strings are Lean `String`s; Go maps are association lists with
insert-or-overwrite (`listUpsert`), which fixes an (irrelevant) iteration
order; Go's fallible calls return `Except String`.  The concurrent fan-out of
`ExecuteOnClusters` is linearized: each resolved name contributes one outcome,
and the outcomes are folded into the aggregate in resolution order (for
distinct names the resulting map does not depend on the order).  The only
observable of a per-endpoint `context.WithTimeout` context that the claims
mention is its deadline, so an operation receives the timeout (in seconds) as
an explicit argument.
-/

namespace Fusion

/-! ## Models of the Go `strings` helpers used by the targeting code -/

/-- Model of Go `unicode.IsSpace` restricted to the ASCII range (the only
whitespace the targeting code ever meets). -/
def goIsSpace (c : Char) : Bool :=
  c == ' ' || c == '\t' || c == '\n' || c == '\r' ||
  c == Char.ofNat 11 || c == Char.ofNat 12

/-- Model of Go `strings.TrimSpace`. -/
def strTrim (s : String) : String :=
  ⟨((s.data.dropWhile goIsSpace).reverse.dropWhile goIsSpace).reverse⟩

/-- Split a character list at every occurrence of `sep`
(model of Go `strings.Split` with a one-character separator). -/
def splitCharList (sep : Char) : List Char → List (List Char)
  | [] => [[]]
  | c :: cs =>
    let r := splitCharList sep cs
    if c == sep then [] :: r
    else
      match r with
      | [] => [[c]]
      | h :: t => (c :: h) :: t

/-- Model of Go `strings.Split(s, sep)` for a one-character separator. -/
def strSplit (s : String) (sep : Char) : List String :=
  (splitCharList sep s.data).map String.mk

/-- Break a character list at the first occurrence of `sep`, if any. -/
def breakCharList (sep : Char) : List Char → Option (List Char × List Char)
  | [] => none
  | c :: cs =>
    if c == sep then some ([], cs)
    else (breakCharList sep cs).map (fun p => (c :: p.1, p.2))

/-- Model of Go `strings.SplitN(s, sep, 2)` for a one-character separator:
the result has one element when `sep` does not occur, else two. -/
def strSplitN2 (s : String) (sep : Char) : List String :=
  match breakCharList sep s.data with
  | none => [s]
  | some (l, r) => [⟨l⟩, ⟨r⟩]

/-- Model of Go `strings.ToLower` (ASCII). -/
def strToLower (s : String) : String :=
  ⟨s.data.map Char.toLower⟩

/-- Model of Go `strings.HasPrefix`. -/
def strStartsWith (s pre : String) : Bool :=
  pre.data.isPrefixOf s.data

/-- Whether `sub` occurs as a contiguous run inside `l`. -/
def charListInfixOf (sub : List Char) : List Char → Bool
  | [] => sub.isEmpty
  | c :: cs => sub.isPrefixOf (c :: cs) || charListInfixOf sub cs

/-- Model of Go `strings.Contains(s, sub)`. -/
def strContains (s sub : String) : Bool :=
  charListInfixOf sub.data s.data

/-! ## Association lists modelling Go maps -/

/-- Insert-or-overwrite, the semantics of `m[k] = v` on a Go map. -/
def listUpsert {β : Type} : List (String × β) → String → β → List (String × β)
  | [], k, v => [(k, v)]
  | (k', v') :: rest, k, v =>
    if k' = k then (k, v) :: rest else (k', v') :: listUpsert rest k v

/-- Lookup, the semantics of `v, ok := m[k]` on a Go map. -/
def listLookup {β : Type} : List (String × β) → String → Option β
  | [], _ => none
  | (k', v) :: rest, k => if k' = k then some v else listLookup rest k

instance {ε α : Type} [DecidableEq ε] [DecidableEq α] : DecidableEq (Except ε α) := fun a b =>
  match a, b with
  | .ok x, .ok y =>
    if h : x = y then .isTrue (by rw [h])
    else .isFalse (by intro hh; injection hh; exact h ‹_›)
  | .error x, .error y =>
    if h : x = y then .isTrue (by rw [h])
    else .isFalse (by intro hh; injection hh; exact h ‹_›)
  | .ok _, .error _ => .isFalse (by intro hh; exact Except.noConfusion hh)
  | .error _, .ok _ => .isFalse (by intro hh; exact Except.noConfusion hh)

/-! ## `Target` (target.go) -/

/-- Model of `Target` from `internal/fusion/targeting/target.go`.  The Go `TargetType`
is a string; the constants are `"single"`, `"multi"`, `"fleet"`,
`"selector"`, `"all"`. -/
structure Target where
  /-- Field `Type` — the targeting strategy. -/
  type : String := ""
  /-- Field `Cluster` — single cluster name (for `single`). -/
  cluster : String := ""
  /-- Field `Clusters` — multiple cluster names (for `multi`). -/
  clusters : List String := []
  /-- Field `Fleet` — fleet/hub name (for `fleet`). -/
  fleet : String := ""
  /-- Field `Selector` — label selector string (for `selector`). -/
  selector : String := ""
  /-- Field `Timeout` — operation timeout in seconds. -/
  timeout : Int := 0
deriving DecidableEq, Repr

/-- Model of `Target.Validate` from target.go.  The Go method mutates its receiver
(an empty `Type` is rewritten to `"single"`), so the model returns the
normalized target on success. -/
def Target.validate (t : Target) : Except String Target :=
  if t.type = "single" then
    if t.cluster = "" then .error "cluster name required for single target" else .ok t
  else if t.type = "multi" then
    if t.clusters = [] then .error "at least one cluster required for multi target" else .ok t
  else if t.type = "fleet" then
    if t.fleet = "" then .error "fleet name required for fleet target" else .ok t
  else if t.type = "selector" then
    if t.selector = "" then .error "selector required for selector target" else .ok t
  else if t.type = "all" then .ok t
  else if t.type = "" then .ok { t with type := "single" }
  else .error ("invalid target type: " ++ t.type)

/-- Model of `parseSelector` from target.go: split on `,`, split each piece on the
first `=` (a piece without `=` is dropped), trim whitespace, and collect into
a map (later pairs with the same key overwrite earlier ones). -/
def parseSelector (selector : String) : List (String × String) :=
  (strSplit selector ',').foldl
    (fun selectors pair =>
      match strSplitN2 (strTrim pair) '=' with
      | [k, v] => listUpsert selectors (strTrim k) (strTrim v)
      | _ => selectors)
    []

/-- Model of `matchesSelector` from target.go. -/
def matchesSelector (clusterName : String) (selectors : List (String × String)) : Bool :=
  selectors.all fun kv =>
    (if kv.1 = "name" then strContains clusterName kv.2 else true) &&
    (if kv.1 = "env" then strContains (strToLower clusterName) (strToLower kv.2) else true)

/-- The `switch t.Type` body of `Target.GetClusterNames` (target.go), run on
the already-validated target. -/
def Target.getClusterNamesValidated (t' : Target) (availableClusters : List String) :
    Except String (List String) :=
  if t'.type = "single" then .ok [t'.cluster]
  else if t'.type = "multi" then .ok t'.clusters
  else if t'.type = "all" then .ok availableClusters
  else if t'.type = "fleet" then
    let fleetPrefix := t'.fleet ++ "-"
    let fleetClusters :=
      availableClusters.filter fun c => strStartsWith c fleetPrefix || c == t'.fleet
    if fleetClusters = [] then .error ("no clusters found for fleet: " ++ t'.fleet)
    else .ok fleetClusters
  else if t'.type = "selector" then
    let selectors := parseSelector t'.selector
    let selectedClusters := availableClusters.filter fun c => matchesSelector c selectors
    if selectedClusters = [] then .error ("no clusters match selector: " ++ t'.selector)
    else .ok selectedClusters
  else .error ("unsupported target type: " ++ t'.type)

/-- Model of `Target.GetClusterNames` from target.go: validate (which may normalize
the empty type to `"single"`), then resolve the target against the list of
available cluster names. -/
def Target.getClusterNames (t : Target) (availableClusters : List String) :
    Except String (List String) :=
  match t.validate with
  | .error e => .error e
  | .ok t' => t'.getClusterNamesValidated availableClusters

/-! ## The client registry (clients package) -/

/-- Model of `ClusterClient` from the clients package.  Its `Clientset`, `Config` and
`Context` fields are capabilities of external Kubernetes libraries, opaque to
the dispatch engine; only the identity of the handle matters here. -/
structure ClusterClient where
  name : String
deriving DecidableEq, Repr

/-- Model of `Registry` from the clients package: the name → client map and the
process-wide default timeout (seconds; `NewRegistry` starts it at 30). -/
structure Registry where
  clients : List (String × ClusterClient) := []
  timeout : Int := 30
deriving DecidableEq, Repr

/-- Model of `NewRegistry`. -/
def Registry.newRegistry : Registry := { clients := [], timeout := 30 }

/-- Model of `Registry.SetTimeout`: sets the default timeout for cluster operations. -/
def Registry.setTimeout (r : Registry) (timeout : Int) : Registry :=
  { r with timeout := timeout }

/-- Registration of a client under a name (`r.clients[name] = client`, the
common step of `RegisterInCluster` / `registerContext`; config loading and
client construction are external-library concerns). -/
def Registry.registerCluster (r : Registry) (name : String) (c : ClusterClient) : Registry :=
  { r with clients := listUpsert r.clients name c }

/-- Model of `Registry.GetClient`. -/
def Registry.getClient (r : Registry) (clusterName : String) : Except String ClusterClient :=
  match listLookup r.clients clusterName with
  | some c => .ok c
  | none => .error ("cluster " ++ clusterName ++ " not found in registry")

/-! ## `Result` aggregation (target.go) -/

/-- Model of `ClusterResult` from target.go.  `data` is the opaque serialized payload
(`nil` ↦ `none`); `error` is the empty string when unset (Go zero value). -/
structure ClusterResult where
  clusterName : String
  data : Option String
  error : String
  success : Bool
deriving DecidableEq, Repr

/-- Model of `Result` from target.go.  The Go struct declares `Summary interface{}`
whose concrete type is not in the sources; `common.go` assigns
`result.Summary.Error` on resolution failure, so the model keeps that one
observable as `summaryError` (`none` = unset). -/
structure Result where
  target : Target
  clusterResults : List (String × ClusterResult)
  summaryError : Option String
  errors : List (String × String)
deriving DecidableEq, Repr

/-- Model of `NewResult`. -/
def newResult (target : Target) : Result :=
  { target := target, clusterResults := [], summaryError := none, errors := [] }

/-- Model of `Result.AddClusterResult`: builds a `ClusterResult` whose `success` is
`err == nil`; on failure it also records the message in the `Errors` map.
`err = some m` models a non-nil Go error with message `m`. -/
def Result.addClusterResult (r : Result) (clusterName : String)
    (data : Option String) (err : Option String) : Result :=
  let res : ClusterResult :=
    { clusterName := clusterName, data := data, error := err.getD "",
      success := err.isNone }
  { r with
    clusterResults := listUpsert r.clusterResults clusterName res
    errors :=
      match err with
      | some e => listUpsert r.errors clusterName e
      | none => r.errors }

/-- Model of `Result.SuccessCount`: count of successful entries of the outcome map. -/
def Result.successCount (r : Result) : Nat :=
  (r.clusterResults.filter fun p => p.2.success).length

/-- Model of `Result.FailureCount`: the size of the `Errors` map. -/
def Result.failureCount (r : Result) : Nat :=
  r.errors.length

/-- Model of `Result.TotalCount`: the size of the outcome map. -/
def Result.totalCount (r : Result) : Nat :=
  r.clusterResults.length

/-- The `switch t.Type` body of `Target.ResolveClusterNames` (target.go) —
the resolution the dispatcher actually calls.  It never reads the registry,
and falls back to the placeholder name `"default"` everywhere except for
explicitly named targets. -/
def Target.resolveClusterNamesValidated (t' : Target) : Except String (List String) :=
  if t'.type = "single" then
    if t'.cluster = "" then .ok ["default"] else .ok [t'.cluster]
  else if t'.type = "multi" then .ok t'.clusters
  else if t'.type = "all" ∨ t'.type = "fleet" then .ok ["default"]
  else .ok ["default"]

/-- Model of `Target.ResolveClusterNames` (the wrapper): validate first (mutating the
receiver in Go, so the switch sees the normalized type). -/
def Target.resolveClusterNames (t : Target) (_registry : Registry) :
    Except String (List String) :=
  match t.validate with
  | .error e => .error e
  | .ok t' => t'.resolveClusterNamesValidated

/-! ## The concurrent dispatcher (services/common.go) -/

/-- Model of `ClusterOperation`: a caller-supplied operation.  Its first argument is
the deadline (in seconds) of the bounded context the dispatcher derives for
the endpoint — the only observable of `context.WithTimeout` the claims
mention. -/
def ClusterOperation (α : Type) : Type :=
  Int → ClusterClient → Except String α

/-- The per-endpoint body of `ExecuteOnClusters`' fan-out: look the client
up, run the operation, marshal the payload; produce
`(name, data, error)` exactly as the goroutine sends its `ClusterResult`
over the channel.  `marshal` models `json.Marshal`. -/
def dispatchOne {α : Type} (registry : Registry) (timeout : Int)
    (marshal : α → Except String String) (operation : ClusterOperation α)
    (name : String) : String × Option String × Option String :=
  match registry.getClient name with
  | .error e => (name, none, some ("failed to get client: " ++ e))
  | .ok client =>
    match operation timeout client with
    | .error e => (name, none, some e)
    | .ok data =>
      match marshal data with
      | .error e => (name, none, some ("failed to marshal data: " ++ e))
      | .ok jsonData => (name, some jsonData, none)

/-- Model of `ExecuteOnClusters` from services/common.go: resolve the target (on
failure return an empty result carrying the resolution error), compute the
per-endpoint timeout (the target's if positive, else a constant 30 seconds),
run the operation for every resolved name, and fold every outcome into the
aggregate with `AddClusterResult`. -/
def executeOnClusters {α : Type} (registry : Registry) (target : Target)
    (marshal : α → Except String String) (operation : ClusterOperation α) : Result :=
  match target.resolveClusterNames registry with
  | .error err => { newResult target with summaryError := some err }
  | .ok clusterNames =>
    let timeout : Int := if target.timeout > 0 then target.timeout else 30
    let outcomes := clusterNames.map (dispatchOne registry timeout marshal operation)
    outcomes.foldl (fun r oc => r.addClusterResult oc.1 oc.2.1 oc.2.2) (newResult target)

/-! ## Auxiliary specification-side definitions -/

/-- The arguments of one `AddClusterResult` call. -/
structure RecordOp where
  name : String
  data : Option String
  err : Option String

/-- The aggregate reached from a fresh `NewResult` by a sequence of
`AddClusterResult` calls. -/
def applyRecords (target : Target) (ops : List RecordOp) : Result :=
  ops.foldl (fun r op => r.addClusterResult op.name op.data op.err) (newResult target)

/-- The `data`/`errorMessage` gating invariant of a per-endpoint outcome:
on success the serialized payload is present and the error message unset; on
failure the payload is absent and the error message non-empty. -/
def outcomeOk (cr : ClusterResult) : Prop :=
  (cr.success = true → cr.data.isSome = true ∧ cr.error = "") ∧
  (cr.success = false → cr.data = none ∧ cr.error ≠ "")

/-! ## Helper lemmas -/

theorem listLookup_upsert {β : Type} (m : List (String × β)) (k k' : String) (v : β) :
    listLookup (listUpsert m k v) k' = if k' = k then some v else listLookup m k' := by
  induction m with
  | nil =>
    simp only [listUpsert, listLookup]
    by_cases h : k' = k
    · rw [if_pos h, if_pos h.symm]
    · rw [if_neg h, if_neg (fun hh => h hh.symm)]
  | cons p rest ih =>
    obtain ⟨k₀, v₀⟩ := p
    by_cases h₀ : k₀ = k
    · subst h₀
      simp only [listUpsert, if_pos rfl, listLookup]
      by_cases h : k₀ = k'
      · rw [if_pos h, if_pos h.symm]
      · rw [if_neg h, if_neg (fun hh => h hh.symm), if_neg h]
    · simp only [listUpsert, listLookup]
      rw [if_neg h₀]
      simp only [listLookup]
      rw [ih]
      by_cases h : k₀ = k'
      · have hk : ¬ k' = k := fun hh => h₀ (h.trans hh)
        rw [if_pos h, if_neg hk, if_pos h]
      · by_cases hk : k' = k
        · rw [if_neg h, if_pos hk, if_pos hk]
        · rw [if_neg h, if_neg hk, if_neg hk, if_neg h]

theorem listUpsert_of_lookup_none {β : Type} (m : List (String × β)) (k : String) (v : β)
    (h : listLookup m k = none) : listUpsert m k v = m ++ [(k, v)] := by
  induction m with
  | nil => simp [listUpsert]
  | cons p rest ih =>
    obtain ⟨k₀, v₀⟩ := p
    simp only [listLookup] at h
    by_cases h₀ : k₀ = k
    · rw [if_pos h₀] at h; cases h
    · rw [if_neg h₀] at h
      simp [listUpsert, h₀, ih h]

theorem length_filter_add_length_filter_not {γ : Type} (l : List γ) (p : γ → Bool) :
    (l.filter p).length + (l.filter fun x => !(p x)).length = l.length := by
  induction l with
  | nil => simp
  | cons x xs ih =>
    by_cases h : p x <;> simp [List.filter, h] <;> omega

theorem validate_single_ok (t : Target) (ht : t.type = "single") (h : t.cluster ≠ "") :
    t.validate = .ok t := by
  unfold Target.validate
  rw [ht, if_pos rfl, if_neg h]

theorem validate_multi_ok (t : Target) (ht : t.type = "multi") (h : t.clusters ≠ []) :
    t.validate = .ok t := by
  unfold Target.validate
  rw [ht, if_neg (by decide : ¬ ("multi" : String) = "single"), if_pos rfl, if_neg h]

theorem validate_fleet_ok (t : Target) (ht : t.type = "fleet") (h : t.fleet ≠ "") :
    t.validate = .ok t := by
  unfold Target.validate
  rw [ht, if_neg (by decide : ¬ ("fleet" : String) = "single"),
    if_neg (by decide : ¬ ("fleet" : String) = "multi"), if_pos rfl, if_neg h]

theorem validate_selector_ok (t : Target) (ht : t.type = "selector") (h : t.selector ≠ "") :
    t.validate = .ok t := by
  unfold Target.validate
  rw [ht, if_neg (by decide : ¬ ("selector" : String) = "single"),
    if_neg (by decide : ¬ ("selector" : String) = "multi"),
    if_neg (by decide : ¬ ("selector" : String) = "fleet"), if_pos rfl, if_neg h]

theorem validate_all_ok (t : Target) (ht : t.type = "all") : t.validate = .ok t := by
  unfold Target.validate
  rw [ht, if_neg (by decide : ¬ ("all" : String) = "single"),
    if_neg (by decide : ¬ ("all" : String) = "multi"),
    if_neg (by decide : ¬ ("all" : String) = "fleet"),
    if_neg (by decide : ¬ ("all" : String) = "selector"), if_pos rfl]

theorem validate_emptyType_ok (t : Target) (ht : t.type = "") :
    t.validate = .ok { t with type := "single" } := by
  unfold Target.validate
  rw [ht, if_neg (by decide : ¬ ("" : String) = "single"),
    if_neg (by decide : ¬ ("" : String) = "multi"),
    if_neg (by decide : ¬ ("" : String) = "fleet"),
    if_neg (by decide : ¬ ("" : String) = "selector"),
    if_neg (by decide : ¬ ("" : String) = "all"), if_pos rfl]

theorem getClusterNames_of_validate_ok (t t' : Target) (names : List String)
    (h : t.validate = .ok t') :
    t.getClusterNames names = t'.getClusterNamesValidated names := by
  unfold Target.getClusterNames
  rw [h]

theorem resolveClusterNames_of_validate_ok (t t' : Target) (registry : Registry)
    (h : t.validate = .ok t') :
    t.resolveClusterNames registry = t'.resolveClusterNamesValidated := by
  unfold Target.resolveClusterNames
  rw [h]

/-- Resolution failure short-circuits the dispatcher. -/
theorem executeOnClusters_of_resolutionError {α : Type} (registry : Registry)
    (target : Target) (marshal : α → Except String String)
    (operation : ClusterOperation α) (msg : String)
    (h : target.resolveClusterNames registry = .error msg) :
    executeOnClusters registry target marshal operation =
      { target := target, clusterResults := [], summaryError := some msg, errors := [] } := by
  unfold executeOnClusters
  rw [h]
  rfl

/-! ## Claim C1 -/

/-- C1: for every Target whose resolution fails, `ExecuteOnClusters` returns
an `AggregatedResult` with an empty outcome map and the resolution error's
message as the summary error, and the caller-supplied operation is never
invoked (the result is the same for every operation). -/
theorem C1_resolution_failure_no_dispatch {α : Type} (registry : Registry)
    (target : Target) (marshal : α → Except String String)
    (operation : ClusterOperation α) (msg : String)
    (h : target.resolveClusterNames registry = .error msg) :
    executeOnClusters registry target marshal operation =
      { target := target, clusterResults := [], summaryError := some msg, errors := [] } ∧
    ∀ {β : Type} (marshal' : β → Except String String)
      (operation' : ClusterOperation β),
      executeOnClusters registry target marshal' operation' =
        executeOnClusters registry target marshal operation := by
  refine ⟨executeOnClusters_of_resolutionError _ _ _ _ _ h, ?_⟩
  intro β marshal' operation'
  rw [executeOnClusters_of_resolutionError _ _ _ _ _ h,
      executeOnClusters_of_resolutionError _ _ _ _ _ h]

/-- Witness for C1: the target `{type: "bogus"}` fails resolution with
"invalid target type: bogus", and dispatch returns the empty result carrying
that message. -/
theorem C1_witness :
    (({ type := "bogus" } : Target).resolveClusterNames
        { clients := [("a", ⟨"a"⟩)], timeout := 30 } =
      .error "invalid target type: bogus") ∧
    executeOnClusters { clients := [("a", ⟨"a"⟩)], timeout := 30 }
        ({ type := "bogus" } : Target) (fun s : String => .ok s)
        (fun _ _ => .ok "x") =
      { target := { type := "bogus" }, clusterResults := [],
        summaryError := some "invalid target type: bogus", errors := [] } :=
  ⟨rfl,
    (C1_resolution_failure_no_dispatch
      { clients := [("a", ⟨"a"⟩)], timeout := 30 } ({ type := "bogus" } : Target)
      (fun s : String => .ok s) (fun _ _ => .ok "x")
      "invalid target type: bogus" rfl).1⟩

/-! ## Claim C2 -/

/-- C2 counterexample: record a failure for `"x"`, then overwrite it with a
success.  The later write wins in the outcome map (one successful entry), but
`AddClusterResult` never removes the stale entry from the `Errors` map, so
`SuccessCount + FailureCount = 1 + 1 ≠ 1 = TotalCount`.  Moreover the
aggregate has the same outcome map as recording only the success, yet a
different `FailureCount` — so `FailureCount` is not computable from the
outcome map alone. -/
theorem C2_counterexample :
    (applyRecords {} [⟨"x", none, some "boom"⟩, ⟨"x", some "{}", none⟩]).successCount +
        (applyRecords {} [⟨"x", none, some "boom"⟩, ⟨"x", some "{}", none⟩]).failureCount ≠
      (applyRecords {} [⟨"x", none, some "boom"⟩, ⟨"x", some "{}", none⟩]).totalCount ∧
    (applyRecords {} [⟨"x", none, some "boom"⟩, ⟨"x", some "{}", none⟩]).clusterResults =
      (applyRecords {} [⟨"x", some "{}", none⟩]).clusterResults ∧
    (applyRecords {} [⟨"x", none, some "boom"⟩, ⟨"x", some "{}", none⟩]).failureCount ≠
      (applyRecords {} [⟨"x", some "{}", none⟩]).failureCount := by
  refine ⟨by decide, rfl, by decide⟩

theorem applyRecords_failureCount_aux (ops : List RecordOp) (r : Result)
    (hfresh : ∀ op ∈ ops, listLookup r.clusterResults op.name = none ∧
      listLookup r.errors op.name = none)
    (hnodup : (ops.map RecordOp.name).Nodup)
    (hinv : r.failureCount = (r.clusterResults.filter fun p => !p.2.success).length) :
    (ops.foldl (fun r op => r.addClusterResult op.name op.data op.err) r).failureCount =
      ((ops.foldl (fun r op => r.addClusterResult op.name op.data op.err) r).clusterResults.filter
          fun p => !p.2.success).length := by
  induction ops generalizing r with
  | nil => exact hinv
  | cons op ops ih =>
    obtain ⟨hc, he⟩ := hfresh op (List.mem_cons_self _ _)
    simp only [List.map_cons, List.nodup_cons] at hnodup
    obtain ⟨hnotin, hnodup'⟩ := hnodup
    simp only [List.foldl_cons]
    apply ih
    · intro op' hop'
      have hne : op'.name ≠ op.name := by
        intro hh
        exact hnotin (hh ▸ List.mem_map_of_mem RecordOp.name hop')
      refine ⟨?_, ?_⟩
      · show listLookup (listUpsert r.clusterResults op.name _) op'.name = none
        rw [listLookup_upsert, if_neg hne]
        exact (hfresh op' (List.mem_cons_of_mem _ hop')).1
      · cases herr : op.err with
        | none =>
          show listLookup r.errors op'.name = none
          exact (hfresh op' (List.mem_cons_of_mem _ hop')).2
        | some e =>
          show listLookup (listUpsert r.errors op.name e) op'.name = none
          rw [listLookup_upsert, if_neg hne]
          exact (hfresh op' (List.mem_cons_of_mem _ hop')).2
    · exact hnodup'
    · cases herr : op.err with
      | none =>
        simp only [Result.addClusterResult, Result.failureCount,
          listUpsert_of_lookup_none _ _ _ hc, List.filter_append]
        simp only [Result.failureCount] at hinv
        simp [hinv]
      | some e =>
        simp only [Result.addClusterResult, Result.failureCount,
          listUpsert_of_lookup_none _ _ _ hc, listUpsert_of_lookup_none _ _ _ he,
          List.filter_append]
        simp only [Result.failureCount] at hinv
        simp [hinv]

/-- C2 (amended): provided each endpoint name is recorded at most once
(which rules out the failure-then-success overwrite of the counterexample),
`SuccessCount + FailureCount = TotalCount =` the size of the outcome map,
and `FailureCount` coincides with the outcome-map-only count of failed
entries (`SuccessCount` and `TotalCount` are such counts by definition). -/
theorem C2_counts_identity (target : Target) (ops : List RecordOp)
    (h : (ops.map RecordOp.name).Nodup) :
    (applyRecords target ops).successCount + (applyRecords target ops).failureCount =
      (applyRecords target ops).totalCount ∧
    (applyRecords target ops).totalCount = (applyRecords target ops).clusterResults.length ∧
    (applyRecords target ops).failureCount =
      ((applyRecords target ops).clusterResults.filter fun p => !p.2.success).length := by
  have h2 : (applyRecords target ops).failureCount =
      ((applyRecords target ops).clusterResults.filter fun p => !p.2.success).length :=
    applyRecords_failureCount_aux ops (newResult target)
      (fun op _ => ⟨rfl, rfl⟩) h rfl
  refine ⟨?_, rfl, h2⟩
  rw [h2]
  exact length_filter_add_length_filter_not
    ((applyRecords target ops).clusterResults) (fun p => p.2.success)

/-- Witness for C2: two records with distinct names — one failure, one
success — give `SuccessCount + FailureCount = TotalCount = 2`. -/
theorem C2_witness :
    ((([⟨"x", none, some "boom"⟩, ⟨"y", some "{}", none⟩] : List RecordOp).map
        RecordOp.name).Nodup) ∧
    (applyRecords {} [⟨"x", none, some "boom"⟩, ⟨"y", some "{}", none⟩]).successCount +
        (applyRecords {} [⟨"x", none, some "boom"⟩, ⟨"y", some "{}", none⟩]).failureCount =
      (applyRecords {} [⟨"x", none, some "boom"⟩, ⟨"y", some "{}", none⟩]).totalCount :=
  ⟨by decide,
    (C2_counts_identity {} [⟨"x", none, some "boom"⟩, ⟨"y", some "{}", none⟩] (by decide)).1⟩

/-! ## Claim C3 -/

/-- C3 counterexample: set the registry's default timeout to 5 seconds via
`SetTimeout`, then dispatch a Target with `timeoutSeconds = 0` and an
operation that reports the deadline of its bounded context.  The recorded
deadline is the fixed constant 30, not the registry default 5 — refuting the
claim that the registry's default (as last set by `SetTimeout`) is used. -/
theorem C3_counterexample :
    (Registry.setTimeout { clients := [("a", ⟨"a"⟩)], timeout := 30 } 5).timeout = 5 ∧
    executeOnClusters (Registry.setTimeout { clients := [("a", ⟨"a"⟩)], timeout := 30 } 5)
        ({ type := "single", cluster := "a" } : Target)
        (fun i : Int => .ok (if i = 30 then "thirty" else "other"))
        (fun tm _ => .ok tm) =
      { target := { type := "single", cluster := "a" },
        clusterResults :=
          [("a",
            { clusterName := "a", data := some "thirty", error := "", success := true })],
        summaryError := none, errors := [] } :=
  ⟨rfl, rfl⟩

/-- C3 (amended): every per-endpoint bounded context gets a deadline of
`Target.timeoutSeconds` seconds when `timeoutSeconds > 0`, and otherwise the
fixed constant 30 seconds; the registry's default timeout (mutable via
`SetTimeout`) is never consulted by `ExecuteOnClusters`. -/
theorem C3_dispatch_timeout {α : Type} (registry : Registry) (d : Int) (target : Target)
    (marshal : α → Except String String) (operation : ClusterOperation α) :
    executeOnClusters (registry.setTimeout d) target marshal operation =
      executeOnClusters registry target marshal
        (fun _ client =>
          operation (if target.timeout > 0 then target.timeout else 30) client) := by
  rfl

/-! ## Claim C4 -/

/-- C4: a fleet Target with group `g` resolves (via `GetClusterNames`) to
exactly the registered names that equal `g` or start with `g ++ "-"`, in
registry order, and fails with the "no clusters found for fleet" error when
that filtered set is empty. -/
theorem C4_fleet_resolution (t : Target) (names : List String)
    (ht : t.type = "fleet") (hf : t.fleet ≠ "") :
    t.getClusterNames names =
      (if names.filter (fun c => strStartsWith c (t.fleet ++ "-") || c == t.fleet) = [] then
        .error ("no clusters found for fleet: " ++ t.fleet)
      else .ok (names.filter fun c => strStartsWith c (t.fleet ++ "-") || c == t.fleet)) := by
  rw [getClusterNames_of_validate_ok t t names (validate_fleet_ok t ht hf)]
  unfold Target.getClusterNamesValidated
  rw [ht, if_neg (by decide : ¬ ("fleet" : String) = "single"),
    if_neg (by decide : ¬ ("fleet" : String) = "multi"),
    if_neg (by decide : ¬ ("fleet" : String) = "all"), if_pos rfl]

/-- Witness for C4, the spec's concrete scenario: group `"x"` against names
`["x-1", "x-2", "y-1"]` resolves to exactly `["x-1", "x-2"]`. -/
theorem C4_witness :
    (({ type := "fleet", fleet := "x" } : Target).type = "fleet" ∧
      ({ type := "fleet", fleet := "x" } : Target).fleet ≠ "") ∧
    ({ type := "fleet", fleet := "x" } : Target).getClusterNames ["x-1", "x-2", "y-1"] =
      .ok ["x-1", "x-2"] :=
  ⟨⟨rfl, by decide⟩, by
    rw [C4_fleet_resolution ({ type := "fleet", fleet := "x" } : Target)
      ["x-1", "x-2", "y-1"] rfl (by decide)]
    rfl⟩

/-! ## Claim C5 -/

theorem matchesSelector_eq_true_iff (c : String) (sel : List (String × String)) :
    matchesSelector c sel = true ↔
      ∀ kv ∈ sel,
        (kv.1 = "name" → strContains c kv.2 = true) ∧
        (kv.1 = "env" → strContains (strToLower c) (strToLower kv.2) = true) := by
  simp only [matchesSelector, List.all_eq_true, Bool.and_eq_true]
  constructor
  · intro h kv hkv
    obtain ⟨h1, h2⟩ := h kv hkv
    refine ⟨?_, ?_⟩
    · intro hn; rw [if_pos hn] at h1; exact h1
    · intro he; rw [if_pos he] at h2; exact h2
  · intro h kv hkv
    obtain ⟨h1, h2⟩ := h kv hkv
    refine ⟨?_, ?_⟩
    · by_cases hn : kv.1 = "name"
      · rw [if_pos hn]; exact h1 hn
      · rw [if_neg hn]
    · by_cases he : kv.1 = "env"
      · rw [if_pos he]; exact h2 he
      · rw [if_neg he]

theorem matchesSelector_envProd (c : String) :
    matchesSelector c [("env", "prod")] = strContains (strToLower c) "prod" := by
  unfold matchesSelector
  rw [List.all_cons, List.all_nil,
    if_neg (by decide : ¬ ("env" : String) = "name"), if_pos rfl,
    Bool.and_true, Bool.true_and]
  rfl

/-- C5: selector resolution (via `GetClusterNames`) returns exactly the
names matched by `matchesSelector` against the parsed key/value pairs
(`parseSelector`: split on commas, each pair on the first `=` with
whitespace trimmed, pairs without `=` dropped, later duplicate keys
overwriting earlier ones), failing with "no clusters match selector" when
nothing matches; a name matches iff for every parsed pair the `name` key
requires substring containment and the `env` key case-insensitive
containment, other keys being vacuous; in particular selector `"env=prod"`
returns exactly the names whose lowercase form contains `"prod"`. -/
theorem C5_selector_resolution (t : Target) (names : List String)
    (ht : t.type = "selector") (hs : t.selector ≠ "") :
    (t.getClusterNames names =
      if names.filter (fun c => matchesSelector c (parseSelector t.selector)) = [] then
        .error ("no clusters match selector: " ++ t.selector)
      else .ok (names.filter fun c => matchesSelector c (parseSelector t.selector))) ∧
    (∀ c, matchesSelector c (parseSelector t.selector) = true ↔
      ∀ kv ∈ parseSelector t.selector,
        (kv.1 = "name" → strContains c kv.2 = true) ∧
        (kv.1 = "env" → strContains (strToLower c) (strToLower kv.2) = true)) ∧
    (t.selector = "env=prod" →
      t.getClusterNames names =
        if names.filter (fun c => strContains (strToLower c) "prod") = [] then
          .error "no clusters match selector: env=prod"
        else .ok (names.filter fun c => strContains (strToLower c) "prod")) := by
  have h1 : t.getClusterNames names =
      if names.filter (fun c => matchesSelector c (parseSelector t.selector)) = [] then
        .error ("no clusters match selector: " ++ t.selector)
      else .ok (names.filter fun c => matchesSelector c (parseSelector t.selector)) := by
    rw [getClusterNames_of_validate_ok t t names (validate_selector_ok t ht hs)]
    unfold Target.getClusterNamesValidated
    rw [ht, if_neg (by decide : ¬ ("selector" : String) = "single"),
      if_neg (by decide : ¬ ("selector" : String) = "multi"),
      if_neg (by decide : ¬ ("selector" : String) = "all"),
      if_neg (by decide : ¬ ("selector" : String) = "fleet"), if_pos rfl]
  refine ⟨h1, fun c => matchesSelector_eq_true_iff c (parseSelector t.selector), ?_⟩
  intro hsel
  rw [hsel] at h1
  have hp : parseSelector "env=prod" = [("env", "prod")] := rfl
  rw [hp] at h1
  rw [h1, List.filter_congr (fun c _ => matchesSelector_envProd c)]
  rfl

/-- Witness for C5: selector `"env=prod"` against
`["PROD-1", "dev-1", "myprod"]` returns exactly the names whose lowercase
form contains `"prod"`. -/
theorem C5_witness :
    (({ type := "selector", selector := "env=prod" } : Target).type = "selector" ∧
      ({ type := "selector", selector := "env=prod" } : Target).selector ≠ "") ∧
    ({ type := "selector", selector := "env=prod" } : Target).getClusterNames
        ["PROD-1", "dev-1", "myprod"] = .ok ["PROD-1", "myprod"] :=
  ⟨⟨rfl, by decide⟩, by
    rw [(C5_selector_resolution ({ type := "selector", selector := "env=prod" } : Target)
      ["PROD-1", "dev-1", "myprod"] rfl (by decide)).2.2 rfl]
    rfl⟩

/-! ## Claim C6 -/

theorem resolveClusterNames_of_validate_error (t : Target) (registry : Registry)
    (e : String) (h : t.validate = .error e) :
    t.resolveClusterNames registry = .error e := by
  unfold Target.resolveClusterNames
  rw [h]

/-- C6: a `multi` Target with a non-empty endpoints list resolves — through
both `GetClusterNames` and `ResolveClusterNames` — to exactly that list,
verbatim and in order; with an empty list, validation fails and a dispatch
returns the empty result with no operation launched. -/
theorem C6_multi_resolution {α : Type} (t : Target) (avail : List String)
    (registry : Registry) (marshal : α → Except String String)
    (operation : ClusterOperation α) (ht : t.type = "multi") :
    (t.clusters ≠ [] →
      t.getClusterNames avail = .ok t.clusters ∧
      t.resolveClusterNames registry = .ok t.clusters) ∧
    (t.clusters = [] →
      t.validate = .error "at least one cluster required for multi target" ∧
      executeOnClusters registry t marshal operation =
        { target := t, clusterResults := [],
          summaryError := some "at least one cluster required for multi target",
          errors := [] }) := by
  constructor
  · intro hne
    constructor
    · rw [getClusterNames_of_validate_ok t t avail (validate_multi_ok t ht hne)]
      unfold Target.getClusterNamesValidated
      rw [ht, if_neg (by decide : ¬ ("multi" : String) = "single"), if_pos rfl]
    · rw [resolveClusterNames_of_validate_ok t t registry (validate_multi_ok t ht hne)]
      unfold Target.resolveClusterNamesValidated
      rw [ht, if_neg (by decide : ¬ ("multi" : String) = "single"), if_pos rfl]
  · intro hemp
    have hv : t.validate = .error "at least one cluster required for multi target" := by
      unfold Target.validate
      rw [ht, if_neg (by decide : ¬ ("multi" : String) = "single"), if_pos rfl,
        if_pos hemp]
    exact ⟨hv,
      executeOnClusters_of_resolutionError registry t marshal operation _
        (resolveClusterNames_of_validate_error t registry _ hv)⟩

/-- Witness for C6: the multi Target naming `["a", "b"]` resolves to exactly
`["a", "b"]` whatever is registered. -/
theorem C6_witness :
    (({ type := "multi", clusters := ["a", "b"] } : Target).type = "multi" ∧
      ({ type := "multi", clusters := ["a", "b"] } : Target).clusters ≠ []) ∧
    ({ type := "multi", clusters := ["a", "b"] } : Target).getClusterNames ["z"] =
      .ok ["a", "b"] :=
  ⟨⟨rfl, by decide⟩,
    ((C6_multi_resolution ({ type := "multi", clusters := ["a", "b"] } : Target) ["z"]
        Registry.newRegistry (fun s : String => .ok s) (fun _ _ => .ok "x") rfl).1
      (by decide)).1⟩

/-! ## Claim C7 -/

/-- C7: dispatching `{kind: multi, endpoints: ["a", "b"]}` where `"a"` is
registered (and its operation succeeds) and `"b"` is not registered yields
exactly two outcomes — `"b"` failed with a "not found" message and without
invoking the operation, `"a"` successful with the serialized payload — and
the summary counts one failed cluster; the top-level call itself does not
fail (no summary error). -/
theorem C7_missing_endpoint_recorded {α : Type} (registry : Registry)
    (ca : ClusterClient) (marshal : α → Except String String)
    (operation : ClusterOperation α) (payload : α) (js : String)
    (ha : listLookup registry.clients "a" = some ca)
    (hb : listLookup registry.clients "b" = none)
    (hop : operation 30 ca = .ok payload)
    (hm : marshal payload = .ok js) :
    executeOnClusters registry ({ type := "multi", clusters := ["a", "b"] } : Target)
        marshal operation =
      { target := { type := "multi", clusters := ["a", "b"] },
        clusterResults :=
          [("a", { clusterName := "a", data := some js, error := "", success := true }),
           ("b",
            { clusterName := "b", data := none,
              error := "failed to get client: cluster b not found in registry",
              success := false })],
        summaryError := none,
        errors := [("b", "failed to get client: cluster b not found in registry")] } ∧
    (executeOnClusters registry ({ type := "multi", clusters := ["a", "b"] } : Target)
        marshal operation).failureCount = 1 ∧
    (executeOnClusters registry ({ type := "multi", clusters := ["a", "b"] } : Target)
        marshal operation).successCount = 1 ∧
    (executeOnClusters registry ({ type := "multi", clusters := ["a", "b"] } : Target)
        marshal operation).totalCount = 2 := by
  have hres : ({ type := "multi", clusters := ["a", "b"] } : Target).resolveClusterNames
      registry = .ok ["a", "b"] := by
    rw [resolveClusterNames_of_validate_ok _ _ registry
      (validate_multi_ok _ rfl (by decide))]
    rfl
  have hmain : executeOnClusters registry
      ({ type := "multi", clusters := ["a", "b"] } : Target) marshal operation =
      { target := { type := "multi", clusters := ["a", "b"] },
        clusterResults :=
          [("a", { clusterName := "a", data := some js, error := "", success := true }),
           ("b",
            { clusterName := "b", data := none,
              error := "failed to get client: cluster b not found in registry",
              success := false })],
        summaryError := none,
        errors := [("b", "failed to get client: cluster b not found in registry")] } := by
    have hT : (if (0 : Int) > 0 then (0 : Int) else 30) = 30 := by norm_num
    simp only [executeOnClusters, hres, hT, dispatchOne, Registry.getClient, ha, hb, hop, hm,
      List.map_cons, List.map_nil, List.foldl_cons, List.foldl_nil,
      Result.addClusterResult, newResult]
    rfl
  refine ⟨hmain, ?_, ?_, ?_⟩ <;> rw [hmain] <;> rfl

/-- Witness for C7 with a concrete registry and operation. -/
theorem C7_witness :
    (listLookup ({ clients := [("a", ⟨"a"⟩)], timeout := 30 } : Registry).clients "a" =
        some ⟨"a"⟩ ∧
      listLookup ({ clients := [("a", ⟨"a"⟩)], timeout := 30 } : Registry).clients "b" =
        none) ∧
    (executeOnClusters ({ clients := [("a", ⟨"a"⟩)], timeout := 30 } : Registry)
        ({ type := "multi", clusters := ["a", "b"] } : Target)
        (fun s : String => .ok s) (fun _ _ => .ok "P")).failureCount = 1 :=
  ⟨⟨rfl, rfl⟩,
    (C7_missing_endpoint_recorded ({ clients := [("a", ⟨"a"⟩)], timeout := 30 } : Registry)
      ⟨"a"⟩ (fun s : String => .ok s) (fun _ _ => .ok "P") "P" "P"
      rfl rfl rfl rfl).2.1⟩

/-! ## Claim C8 -/

/-- C8 counterexample: a Target with empty kind and empty endpoint PASSES
validation — the `""` case of the switch only rewrites the type to
`"single"` and returns nil, without re-checking the endpoint field (the
claim says such a Target fails validation). -/
theorem C8_counterexample :
    ({ type := "", cluster := "" } : Target).validate =
      .ok ({ type := "single", cluster := "" } : Target) := rfl

/-- C8 (amended): validation succeeds iff the field required by the
explicitly given kind is non-empty, unknown non-empty kinds fail, and an
empty kind is normalized to `single` and always passes — without re-checking
the endpoint.  On success the target is returned unchanged apart from that
normalization; on failure a dispatch returns the empty result (no outcome is
recorded, no operation runs). -/
theorem C8_validation (t : Target) :
    ((∃ t', t.validate = .ok t') ↔
      (t.type = "" ∨ t.type = "all" ∨
        (t.type = "single" ∧ t.cluster ≠ "") ∨
        (t.type = "multi" ∧ t.clusters ≠ []) ∨
        (t.type = "fleet" ∧ t.fleet ≠ "") ∨
        (t.type = "selector" ∧ t.selector ≠ ""))) ∧
    (∀ t', t.validate = .ok t' →
      t' = { t with type := if t.type = "" then "single" else t.type }) ∧
    (∀ {α : Type} (e : String) (registry : Registry)
        (marshal : α → Except String String) (operation : ClusterOperation α),
      t.validate = .error e →
      executeOnClusters registry t marshal operation =
        { target := t, clusterResults := [], summaryError := some e, errors := [] }) := by
  refine ⟨?_, ?_, ?_⟩
  · obtain ⟨ty, cl, cls, fl, sel, tmo⟩ := t
    unfold Target.validate
    split_ifs <;> simp_all
  · obtain ⟨ty, cl, cls, fl, sel, tmo⟩ := t
    intro t' ht'
    unfold Target.validate at ht'
    split_ifs at ht' <;> simp_all
  · intro α e registry marshal operation he
    exact executeOnClusters_of_resolutionError registry t marshal operation e
      (resolveClusterNames_of_validate_error t registry e he)

/-- Witness for C8: a selector Target with empty expression fails validation
and dispatch returns the empty result. -/
theorem C8_witness :
    (({ type := "selector" } : Target).validate =
      .error "selector required for selector target") ∧
    executeOnClusters Registry.newRegistry ({ type := "selector" } : Target)
        (fun s : String => .ok s) (fun _ _ => .ok "x") =
      { target := { type := "selector" }, clusterResults := [],
        summaryError := some "selector required for selector target", errors := [] } :=
  ⟨rfl,
    (C8_validation ({ type := "selector" } : Target)).2.2
      "selector required for selector target" Registry.newRegistry
      (fun s : String => .ok s) (fun _ _ => .ok "x") rfl⟩

/-! ## Claim C9 -/

theorem strAppend_ne_empty (p s : String) (h : p.data ≠ []) : p ++ s ≠ "" := by
  intro hh
  have h2 : p.data ++ s.data = [] := by
    have h3 : (p ++ s).data = ("" : String).data := by rw [hh]
    exact h3
  exact h (List.append_eq_nil.mp h2).1

theorem mem_listUpsert {β : Type} (m : List (String × β)) (k : String) (v : β)
    (p : String × β) (h : p ∈ listUpsert m k v) : p ∈ m ∨ p = (k, v) := by
  induction m with
  | nil =>
    simp only [listUpsert, List.mem_singleton] at h
    exact Or.inr h
  | cons q rest ih =>
    obtain ⟨k₀, v₀⟩ := q
    simp only [listUpsert] at h
    by_cases h₀ : k₀ = k
    · rw [if_pos h₀] at h
      rcases List.mem_cons.mp h with h | h
      · exact Or.inr h
      · exact Or.inl (List.mem_cons_of_mem _ h)
    · rw [if_neg h₀] at h
      rcases List.mem_cons.mp h with h | h
      · exact Or.inl (h ▸ List.mem_cons_self _ _)
      · rcases ih h with h | h
        · exact Or.inl (List.mem_cons_of_mem _ h)
        · exact Or.inr h

theorem foldl_addClusterResult_mem
    (ocs : List (String × Option String × Option String)) (r : Result)
    (P : ClusterResult → Prop)
    (hr : ∀ p ∈ r.clusterResults, P p.2)
    (hocs : ∀ oc ∈ ocs,
      P { clusterName := oc.1, data := oc.2.1, error := oc.2.2.getD "",
          success := oc.2.2.isNone }) :
    ∀ p ∈ ((ocs.foldl (fun r oc => r.addClusterResult oc.1 oc.2.1 oc.2.2)
        r).clusterResults), P p.2 := by
  induction ocs generalizing r with
  | nil => exact hr
  | cons oc ocs ih =>
    simp only [List.foldl_cons]
    apply ih
    · intro p hp
      rcases mem_listUpsert r.clusterResults oc.1 _ p hp with h | h
      · exact hr p h
      · rw [h]
        exact hocs oc (List.mem_cons_self _ _)
    · intro oc' h'
      exact hocs oc' (List.mem_cons_of_mem _ h')

theorem dispatchOne_outcomeOk {α : Type} (registry : Registry) (timeout : Int)
    (marshal : α → Except String String) (operation : ClusterOperation α)
    (hop : ∀ tm c e, operation tm c = .error e → e ≠ "") (name : String) :
    outcomeOk
      { clusterName := (dispatchOne registry timeout marshal operation name).1,
        data := (dispatchOne registry timeout marshal operation name).2.1,
        error := (dispatchOne registry timeout marshal operation name).2.2.getD "",
        success := (dispatchOne registry timeout marshal operation name).2.2.isNone } := by
  cases hg : registry.getClient name with
  | error e =>
    have hd : dispatchOne registry timeout marshal operation name =
        (name, none, some ("failed to get client: " ++ e)) := by
      unfold dispatchOne
      rw [hg]
    rw [hd]
    exact ⟨(fun h => nomatch h), (fun _ => ⟨rfl, strAppend_ne_empty _ _ (by decide)⟩)⟩
  | ok client =>
    have hstep : dispatchOne registry timeout marshal operation name =
        (match operation timeout client with
          | .error e => (name, none, some e)
          | .ok data =>
            match marshal data with
            | .error e => (name, none, some ("failed to marshal data: " ++ e))
            | .ok jsonData => (name, some jsonData, none)) := by
      unfold dispatchOne
      rw [hg]
    cases ho : operation timeout client with
    | error e =>
      rw [ho] at hstep
      rw [hstep]
      exact ⟨(fun h => nomatch h), (fun _ => ⟨rfl, hop timeout client e ho⟩)⟩
    | ok data =>
      rw [ho] at hstep
      have hstep2 : dispatchOne registry timeout marshal operation name =
          (match marshal data with
            | .error e => (name, none, some ("failed to marshal data: " ++ e))
            | .ok jsonData => (name, some jsonData, none)) := hstep
      cases hj : marshal data with
      | error e =>
        rw [hj] at hstep2
        rw [hstep2]
        exact ⟨(fun h => nomatch h), (fun _ => ⟨rfl, strAppend_ne_empty _ _ (by decide)⟩)⟩
      | ok jsonData =>
        rw [hj] at hstep2
        rw [hstep2]
        exact ⟨(fun _ => ⟨rfl, rfl⟩), (fun h => nomatch h)⟩

/-- C9 counterexample: a caller-supplied operation whose error has an empty
message yields an outcome with `success = false` and an EMPTY
`errorMessage`, refuting the unconditional "errorMessage is non-empty". -/
theorem C9_counterexample :
    (executeOnClusters ({ clients := [("a", ⟨"a"⟩)], timeout := 30 } : Registry)
        ({ type := "single", cluster := "a" } : Target) (fun s : String => .ok s)
        (fun _ _ => .error "")).clusterResults =
      [("a", { clusterName := "a", data := none, error := "", success := false })] := rfl

/-- C9 (amended): every outcome the dispatcher records is gated by
`success` — on success the serialized payload is present and the error
message empty, on failure the payload is absent and the error message
non-empty — provided the caller-supplied operation's error messages are
themselves non-empty; the two in-dispatcher failure messages
("failed to get client: …", "failed to marshal data: …") are always
non-empty. -/
theorem C9_outcome_gating {α : Type} (registry : Registry) (t : Target)
    (marshal : α → Except String String) (operation : ClusterOperation α)
    (hop : ∀ tm c e, operation tm c = .error e → e ≠ "") :
    ∀ p ∈ (executeOnClusters registry t marshal operation).clusterResults,
      outcomeOk p.2 := by
  unfold executeOnClusters
  cases hres : t.resolveClusterNames registry with
  | error e =>
    intro p hp
    exact absurd hp (List.not_mem_nil p)
  | ok names =>
    apply foldl_addClusterResult_mem
    · intro p hp
      exact absurd hp (List.not_mem_nil p)
    · intro oc hoc
      obtain ⟨name, _, rfl⟩ := List.mem_map.mp hoc
      exact dispatchOne_outcomeOk registry _ marshal operation hop name

/-- Witness for C9: a successful dispatch records a present payload and an
empty error message. -/
theorem C9_witness :
    ({ clusterName := "a", data := some "P", error := "", success := true }
        : ClusterResult).data.isSome = true ∧
    ({ clusterName := "a", data := some "P", error := "", success := true }
        : ClusterResult).error = "" := by
  have hmem :
      ("a", ({ clusterName := "a", data := some "P", error := "", success := true }
        : ClusterResult)) ∈
      (executeOnClusters ({ clients := [("a", ⟨"a"⟩)], timeout := 30 } : Registry)
        ({ type := "single", cluster := "a" } : Target)
        (fun s : String => .ok s) (fun _ _ => .ok "P")).clusterResults :=
    List.mem_singleton.mpr rfl
  exact (C9_outcome_gating ({ clients := [("a", ⟨"a"⟩)], timeout := 30 } : Registry)
    ({ type := "single", cluster := "a" } : Target)
    (fun s : String => .ok s) (fun _ _ => .ok "P")
    (fun _ _ _ h => nomatch h) _ hmem).1 rfl

/-! ## Claim C10 -/

/-- C10 counterexample: for an explicit kind `single` with an empty endpoint
name, `ResolveClusterNames` does NOT return `["default"]` — validation fails
first ("cluster name required for single target"); only an empty kind
(defaulted to single) reaches the `["default"]` fallback. -/
theorem C10_counterexample :
    ({ type := "single", cluster := "" } : Target).resolveClusterNames
        Registry.newRegistry =
      .error "cluster name required for single target" := rfl

/-- C10 (amended): `ResolveClusterNames` — the resolution the dispatcher
actually calls — never reads the registry (its result is the same for any
two registries), and returns the one-element list `["default"]` for every
valid Target of kind `fleet`, `all` or `selector`, and for an empty kind
with an empty endpoint name (which validation normalizes to `single`). -/
theorem C10_placeholder_resolution (t : Target) (registry registry' : Registry) :
    (t.resolveClusterNames registry = t.resolveClusterNames registry') ∧
    (t.type = "fleet" → t.fleet ≠ "" →
      t.resolveClusterNames registry = .ok ["default"]) ∧
    (t.type = "all" → t.resolveClusterNames registry = .ok ["default"]) ∧
    (t.type = "selector" → t.selector ≠ "" →
      t.resolveClusterNames registry = .ok ["default"]) ∧
    (t.type = "" → t.cluster = "" →
      t.resolveClusterNames registry = .ok ["default"]) := by
  refine ⟨rfl, ?_, ?_, ?_, ?_⟩
  · intro ht hf
    rw [resolveClusterNames_of_validate_ok t t registry (validate_fleet_ok t ht hf)]
    unfold Target.resolveClusterNamesValidated
    rw [ht, if_neg (by decide : ¬ ("fleet" : String) = "single"),
      if_neg (by decide : ¬ ("fleet" : String) = "multi"), if_pos (Or.inr rfl)]
  · intro ht
    rw [resolveClusterNames_of_validate_ok t t registry (validate_all_ok t ht)]
    unfold Target.resolveClusterNamesValidated
    rw [ht, if_neg (by decide : ¬ ("all" : String) = "single"),
      if_neg (by decide : ¬ ("all" : String) = "multi"), if_pos (Or.inl rfl)]
  · intro ht hs
    rw [resolveClusterNames_of_validate_ok t t registry (validate_selector_ok t ht hs)]
    unfold Target.resolveClusterNamesValidated
    rw [ht, if_neg (by decide : ¬ ("selector" : String) = "single"),
      if_neg (by decide : ¬ ("selector" : String) = "multi"),
      if_neg (by decide :
        ¬ (("selector" : String) = "all" ∨ ("selector" : String) = "fleet"))]
  · intro ht hc
    rw [resolveClusterNames_of_validate_ok t { t with type := "single" } registry
      (validate_emptyType_ok t ht)]
    unfold Target.resolveClusterNamesValidated
    rw [if_pos rfl, if_pos hc]

/-- Witness for C10: a fleet Target resolves to `["default"]` even though a
matching endpoint is registered. -/
theorem C10_witness :
    (({ type := "fleet", fleet := "x" } : Target).type = "fleet" ∧
      ({ type := "fleet", fleet := "x" } : Target).fleet ≠ "") ∧
    ({ type := "fleet", fleet := "x" } : Target).resolveClusterNames
        ({ clients := [("x-1", ⟨"x-1"⟩)], timeout := 30 } : Registry) = .ok ["default"] :=
  ⟨⟨rfl, by decide⟩,
    (C10_placeholder_resolution ({ type := "fleet", fleet := "x" } : Target)
      ({ clients := [("x-1", ⟨"x-1"⟩)], timeout := 30 } : Registry)
      Registry.newRegistry).2.1 rfl (by decide)⟩

end Fusion
